import Mathlib

/-!
Shallow embedding of the A2A sample server core (store.rs, server.rs,
types.rs, error.rs): the task state machine, the in-memory task store with
its update-broadcast events, the JSON-RPC dispatcher, and the untagged
`Part` wire encoding.  `DateTime<Utc>` instants are modelled as `Nat` and
`Utc::now()` is passed in explicitly as a `now` argument.  The broadcast
channel is modelled by returning the list of task snapshots sent during one
operation.  `HashMap<String, V>` is modelled as an association list.
-/

namespace A2A

/-- Model of `serde_json::Value`.  JSON numbers are modelled as integers
(the claims under study never exercise non-integer numbers). -/
inductive Json where
  | null : Json
  | bool (b : Bool) : Json
  | num (n : Int) : Json
  | str (s : String) : Json
  | arr (items : List Json) : Json
  | obj (fields : List (String × Json)) : Json

/-- Opaque metadata maps (`HashMap<String, serde_json::Value>`). -/
abbrev Metadata := List (String × Json)

/-- `TaskState` from types.rs. -/
inductive TaskState where
  | Submitted
  | Working
  | InputRequired
  | Completed
  | Canceled
  | Failed
  | Rejected
  | Unknown
deriving DecidableEq

/-- `TextPart` from types.rs (`part_type` is the `type` wire field). -/
structure TextPart where
  part_type : String
  text : String
  metadata : Option Metadata

/-- `FileContent` from types.rs. -/
structure FileContent where
  name : Option String
  mime_type : Option String
  bytes : Option String
  uri : Option String

/-- `FilePart` from types.rs. -/
structure FilePart where
  part_type : String
  file : FileContent
  metadata : Option Metadata

/-- `DataPart` from types.rs. -/
structure DataPart where
  part_type : String
  data : Metadata
  metadata : Option Metadata

/-- `Part` from types.rs: a serde `untagged` union of Text/File/Data. -/
inductive Part where
  | Text (t : TextPart)
  | File (f : FilePart)
  | Data (d : DataPart)

/-- `Message` from types.rs. -/
structure Message where
  role : String
  parts : List Part
  metadata : Option Metadata

/-- `TaskStatus` from types.rs; the timestamp is an abstract instant. -/
structure TaskStatus where
  state : TaskState
  message : Option Message
  timestamp : Nat

/-- `Artifact` from types.rs. -/
structure Artifact where
  name : Option String
  description : Option String
  parts : List Part
  index : Int
  append : Option Bool
  metadata : Option Metadata
  last_chunk : Option Bool

/-- `Task` from types.rs. -/
structure Task where
  id : String
  session_id : Option String
  status : TaskStatus
  artifacts : Option (List Artifact)
  metadata : Option Metadata

/-- `A2AError` from error.rs.  Variants coming from foreign error types
(`serde_json::Error`, `reqwest::Error`) carry their display string. -/
inductive A2AError where
  | SerializationError (msg : String)
  | HttpError (msg : String)
  | TaskNotFound (id : String)
  | InvalidRequest (msg : String)
  | MethodNotFound (method : String)
  | InternalServerError (msg : String)
  | TaskNotCancelable (msg : String)
  | UnsupportedOperation (msg : String)

/-- The `Display` impl generated by `thiserror` on `A2AError`. -/
def errDisplay : A2AError → String
  | .SerializationError m => "JSON serialization error: " ++ m
  | .HttpError m => "HTTP request error: " ++ m
  | .TaskNotFound m => "Task not found: " ++ m
  | .InvalidRequest m => "Invalid request: " ++ m
  | .MethodNotFound m => "Method not found: " ++ m
  | .InternalServerError m => "Internal server error: " ++ m
  | .TaskNotCancelable m => "Task cannot be canceled: " ++ m
  | .UnsupportedOperation m => "Unsupported operation: " ++ m

/-- The Rust `Debug` rendering of a `TaskState` (used in the
`TaskNotCancelable` message of `cancel_task`). -/
def stateDebug : TaskState → String
  | .Submitted => "Submitted"
  | .Working => "Working"
  | .InputRequired => "InputRequired"
  | .Completed => "Completed"
  | .Canceled => "Canceled"
  | .Failed => "Failed"
  | .Rejected => "Rejected"
  | .Unknown => "Unknown"

/-- `JsonRpcError` from types.rs. -/
structure JsonRpcError where
  code : Int
  message : String
  data : Option Json

/-- `JsonRpcResponse<Task>` from types.rs (the instantiation the
dispatcher produces). -/
structure JsonRpcResponse where
  jsonrpc : String
  id : Option String
  result : Option Task
  error : Option JsonRpcError

/-! ## The task store (store.rs)

The `HashMap<String, Task>` behind the mutex is an association list; each
operation returns its result, the post-state, and the list of snapshots
sent on the `task_updates` broadcast channel during the call. -/

/-- `HashMap::get` on the association list model. -/
def lookupTask : List (String × Task) → String → Option Task
  | [], _ => none
  | (k, v) :: rest, id => if k = id then some v else lookupTask rest id

/-- `HashMap::insert` (overwrite an existing binding, else add one).
Also models the in-place mutation done through `HashMap::get_mut`. -/
def insertTask : List (String × Task) → String → Task → List (String × Task)
  | [], id, t => [(id, t)]
  | (k, v) :: rest, id, t =>
      if k = id then (id, t) :: rest else (k, v) :: insertTask rest id t

/-- The in-memory store state (store.rs `TaskStore`). -/
structure TaskStore where
  tasks : List (String × Task)

/-- Result of a store mutation: the returned value, the post-state, and
the snapshots sent on the broadcast channel. -/
abbrev StoreResult := Except A2AError Task × TaskStore × List Task

/-- `TaskStore::get_task`: read-only lookup. -/
def get_task (s : TaskStore) (id : String) : Except A2AError Task :=
  match lookupTask s.tasks id with
  | some t => .ok t
  | none => .error (.TaskNotFound id)

/-- `TaskStore::create_task`: unconditional insert, broadcast, return. -/
def create_task (s : TaskStore) (t : Task) : StoreResult :=
  (.ok t, ⟨insertTask s.tasks t.id t⟩, [t])

/-- `TaskStore::update_task_status`: replace the status unconditionally
when the id is present, else `TaskNotFound`. -/
def update_task_status (s : TaskStore) (id : String) (status : TaskStatus) :
    StoreResult :=
  match lookupTask s.tasks id with
  | none => (.error (.TaskNotFound id), s, [])
  | some t =>
      let updated : Task := { t with status := status }
      (.ok updated, ⟨insertTask s.tasks id updated⟩, [updated])

/-- `TaskStore::add_artifact`: append to the artifact list, initializing
it when absent. -/
def add_artifact (s : TaskStore) (id : String) (artifact : Artifact) :
    StoreResult :=
  match lookupTask s.tasks id with
  | none => (.error (.TaskNotFound id), s, [])
  | some t =>
      let updated : Task :=
        { t with artifacts := some ((t.artifacts.getD []) ++ [artifact]) }
      (.ok updated, ⟨insertTask s.tasks id updated⟩, [updated])

/-- `TaskStore::cancel_task`: only Submitted/Working/InputRequired tasks
transition to Canceled (message preserved, timestamp refreshed); other
states fail with `TaskNotCancelable` and leave the store untouched. -/
def cancel_task (s : TaskStore) (id : String) (now : Nat) : StoreResult :=
  match lookupTask s.tasks id with
  | none => (.error (.TaskNotFound id), s, [])
  | some t =>
      match t.status.state with
      | .Submitted | .Working | .InputRequired =>
          let updated : Task :=
            { t with status :=
                { state := .Canceled
                  message := t.status.message
                  timestamp := now } }
          (.ok updated, ⟨insertTask s.tasks id updated⟩, [updated])
      | _ =>
          (.error (.TaskNotCancelable
            ("Task " ++ id ++ " cannot be canceled in state "
              ++ stateDebug t.status.state)), s, [])

/-! ## Wire encoding/decoding (serde derive semantics)

Serialization follows the derived `Serialize` impls: fields in declaration
order, `skip_serializing_if = "Option::is_none"` fields omitted when
`None`.  Deserialization follows the derived `Deserialize` impls: required
fields must be present with the right shape, `Option` fields default to
`None` when missing or `null`, unknown fields are ignored.  `Part` is
`#[serde(untagged)]`: variants are tried in declaration order
Text, File, Data. -/

/-- Field lookup in a JSON object (first binding wins). -/
def lookupField : List (String × Json) → String → Option Json
  | [], _ => none
  | (k, v) :: rest, key => if k = key then some v else lookupField rest key

/-- `Value::as_str` / expecting a JSON string. -/
def Json.asString : Json → Option String
  | .str s => some s
  | _ => none

/-- Expecting a JSON object, yielding its fields. -/
def Json.asObj : Json → Option (List (String × Json))
  | .obj fields => some fields
  | _ => none

/-- Decode a required `String` struct field. -/
def reqStrField (fields : List (String × Json)) (key : String) :
    Option String :=
  (lookupField fields key).bind Json.asString

/-- Decode an `Option<String>` struct field: missing or `null` is `None`,
a string is `Some`, anything else is a decode error. -/
def optStrField (fields : List (String × Json)) (key : String) :
    Option (Option String) :=
  match lookupField fields key with
  | none => some none
  | some .null => some none
  | some (.str s) => some (some s)
  | some _ => none

/-- Decode an `Option<HashMap<String, Value>>` struct field. -/
def optMapField (fields : List (String × Json)) (key : String) :
    Option (Option Metadata) :=
  match lookupField fields key with
  | none => some none
  | some .null => some none
  | some (.obj m) => some (some m)
  | some _ => none

/-- Decode an `Option<i32>` struct field. -/
def optIntField (fields : List (String × Json)) (key : String) :
    Option (Option Int) :=
  match lookupField fields key with
  | none => some none
  | some .null => some none
  | some (.num n) => some (some n)
  | some _ => none

/-- Serialize an optional metadata field (omitted when `None`). -/
def metaField (md : Option Metadata) : List (String × Json) :=
  match md with
  | none => []
  | some m => [("metadata", Json.obj m)]

/-- Serialize an optional string field (omitted when `None`). -/
def optStrOut (key : String) (v : Option String) : List (String × Json) :=
  match v with
  | none => []
  | some s => [(key, Json.str s)]

/-- Serialize a `TextPart` (field order: type, text, metadata). -/
def encodeTextPart (t : TextPart) : Json :=
  Json.obj ([("type", Json.str t.part_type), ("text", Json.str t.text)]
    ++ metaField t.metadata)

/-- Serialize a `FileContent` (field order: name, mime_type, bytes, uri,
each omitted when `None`). -/
def encodeFileContent (fc : FileContent) : Json :=
  Json.obj (optStrOut "name" fc.name ++ optStrOut "mime_type" fc.mime_type
    ++ optStrOut "bytes" fc.bytes ++ optStrOut "uri" fc.uri)

/-- Serialize a `FilePart` (field order: type, file, metadata). -/
def encodeFilePart (f : FilePart) : Json :=
  Json.obj ([("type", Json.str f.part_type), ("file", encodeFileContent f.file)]
    ++ metaField f.metadata)

/-- Serialize a `DataPart` (field order: type, data, metadata). -/
def encodeDataPart (d : DataPart) : Json :=
  Json.obj ([("type", Json.str d.part_type), ("data", Json.obj d.data)]
    ++ metaField d.metadata)

/-- Serialize a `Part` (untagged: just the active variant's fields). -/
def encodePart : Part → Json
  | .Text t => encodeTextPart t
  | .File f => encodeFilePart f
  | .Data d => encodeDataPart d

/-- Deserialize a `TextPart`. -/
def decodeTextPart (j : Json) : Option TextPart := do
  let fields ← j.asObj
  let pt ← reqStrField fields "type"
  let tx ← reqStrField fields "text"
  let md ← optMapField fields "metadata"
  pure { part_type := pt, text := tx, metadata := md }

/-- Deserialize a `FileContent`. -/
def decodeFileContent (j : Json) : Option FileContent := do
  let fields ← j.asObj
  let n ← optStrField fields "name"
  let mt ← optStrField fields "mime_type"
  let by_ ← optStrField fields "bytes"
  let u ← optStrField fields "uri"
  pure { name := n, mime_type := mt, bytes := by_, uri := u }

/-- Deserialize a `FilePart`. -/
def decodeFilePart (j : Json) : Option FilePart := do
  let fields ← j.asObj
  let pt ← reqStrField fields "type"
  let fc ← (lookupField fields "file").bind decodeFileContent
  let md ← optMapField fields "metadata"
  pure { part_type := pt, file := fc, metadata := md }

/-- Deserialize a `DataPart`. -/
def decodeDataPart (j : Json) : Option DataPart := do
  let fields ← j.asObj
  let pt ← reqStrField fields "type"
  let d ← (lookupField fields "data").bind Json.asObj
  let md ← optMapField fields "metadata"
  pure { part_type := pt, data := d, metadata := md }

/-- Deserialize a `Part`: serde `untagged` tries Text, then File, then
Data — equivalently, the variant is inferred from which of the `text`,
`file`, `data` keys is present. -/
def decodePart (j : Json) : Option Part :=
  match decodeTextPart j with
  | some t => some (.Text t)
  | none =>
    match decodeFilePart j with
    | some f => some (.File f)
    | none =>
      match decodeDataPart j with
      | some d => some (.Data d)
      | none => none

/-- Deserialize a list of parts (`Vec<Part>`): every element must decode. -/
def decodeParts : List Json → Option (List Part)
  | [] => some []
  | j :: rest => do
      let p ← decodePart j
      let ps ← decodeParts rest
      pure (p :: ps)

/-- Deserialize a `Message`. -/
def decodeMessage (j : Json) : Option Message := do
  let fields ← j.asObj
  let r ← reqStrField fields "role"
  let partsJson ← (lookupField fields "parts").bind fun v =>
    match v with
    | .arr items => some items
    | _ => none
  let ps ← decodeParts partsJson
  let md ← optMapField fields "metadata"
  pure { role := r, parts := ps, metadata := md }

/-- `TaskSendParams` from types.rs. -/
structure TaskSendParams where
  id : String
  session_id : Option String
  message : Message
  history_length : Option Int
  metadata : Option Metadata

/-- `TaskQueryParams` from types.rs. -/
structure TaskQueryParams where
  id : String
  history_length : Option Int
  metadata : Option Metadata

/-- `TaskIdParams` from types.rs. -/
structure TaskIdParams where
  id : String
  metadata : Option Metadata

/-- `SendTaskRequest` from types.rs (the full JSON-RPC envelope). -/
structure SendTaskRequest where
  jsonrpc : String
  id : Option String
  method : String
  params : TaskSendParams

/-- `GetTaskRequest` from types.rs. -/
structure GetTaskRequest where
  jsonrpc : String
  id : Option String
  method : String
  params : TaskQueryParams

/-- `CancelTaskRequest` from types.rs. -/
structure CancelTaskRequest where
  jsonrpc : String
  id : Option String
  method : String
  params : TaskIdParams

/-- Deserialize `TaskSendParams`. -/
def decodeTaskSendParams (j : Json) : Option TaskSendParams := do
  let fields ← j.asObj
  let i ← reqStrField fields "id"
  let sid ← optStrField fields "session_id"
  let m ← (lookupField fields "message").bind decodeMessage
  let hl ← optIntField fields "history_length"
  let md ← optMapField fields "metadata"
  pure { id := i, session_id := sid, message := m, history_length := hl,
         metadata := md }

/-- Deserialize `TaskQueryParams`. -/
def decodeTaskQueryParams (j : Json) : Option TaskQueryParams := do
  let fields ← j.asObj
  let i ← reqStrField fields "id"
  let hl ← optIntField fields "history_length"
  let md ← optMapField fields "metadata"
  pure { id := i, history_length := hl, metadata := md }

/-- Deserialize `TaskIdParams`. -/
def decodeTaskIdParams (j : Json) : Option TaskIdParams := do
  let fields ← j.asObj
  let i ← reqStrField fields "id"
  let md ← optMapField fields "metadata"
  pure { id := i, metadata := md }

/-- Deserialize a `SendTaskRequest` (serde: `jsonrpc`, `method`, `params`
required; `id` optional). -/
def decodeSendTaskRequest (j : Json) : Option SendTaskRequest := do
  let fields ← j.asObj
  let rpc ← reqStrField fields "jsonrpc"
  let rid ← optStrField fields "id"
  let m ← reqStrField fields "method"
  let ps ← (lookupField fields "params").bind decodeTaskSendParams
  pure { jsonrpc := rpc, id := rid, method := m, params := ps }

/-- Deserialize a `GetTaskRequest`. -/
def decodeGetTaskRequest (j : Json) : Option GetTaskRequest := do
  let fields ← j.asObj
  let rpc ← reqStrField fields "jsonrpc"
  let rid ← optStrField fields "id"
  let m ← reqStrField fields "method"
  let ps ← (lookupField fields "params").bind decodeTaskQueryParams
  pure { jsonrpc := rpc, id := rid, method := m, params := ps }

/-- Deserialize a `CancelTaskRequest`. -/
def decodeCancelTaskRequest (j : Json) : Option CancelTaskRequest := do
  let fields ← j.asObj
  let rpc ← reqStrField fields "jsonrpc"
  let rid ← optStrField fields "id"
  let m ← reqStrField fields "method"
  let ps ← (lookupField fields "params").bind decodeTaskIdParams
  pure { jsonrpc := rpc, id := rid, method := m, params := ps }

/-! ## The JSON-RPC dispatcher (server.rs) -/

/-- The text extracted from a part by `process_message`'s `filter_map`:
the text of `Text` parts, nothing for `File`/`Data` parts. -/
def partText : Part → Option String
  | .Text tp => some tp.text
  | _ => none

/-- `process_message` from server.rs: join the texts of the message's
`Text` parts with single spaces and wrap them in a fixed reply from the
agent. -/
def process_message (message : Message) : Except A2AError Message :=
  let text := String.intercalate " " (message.parts.filterMap partText)
  let response_text := "Rust A2A server received: " ++ text
  .ok { role := "agent"
        parts := [.Text { part_type := "text", text := response_text,
                          metadata := none }]
        metadata := none }

/-- The synthetic artifact attached by `handle_send_task` to a freshly
created task. -/
def sampleArtifact : Artifact :=
  { name := some "result"
    description := some "Task result"
    parts := [.Text { part_type := "text"
                      text := "This is a sample artifact from the Rust A2A server."
                      metadata := none }]
    index := 0
    append := none
    metadata := none
    last_chunk := some true }

/-- `handle_send_task` from server.rs: continuation of an existing
`InputRequired` task, rejection of any other existing task, or creation
of a new completed task with the synthetic artifact. -/
def handle_send_task (s : TaskStore) (request : SendTaskRequest) (now : Nat) :
    StoreResult :=
  let task_id := request.params.id
  let session_id := request.params.session_id
  let message := request.params.message
  match get_task s task_id with
  | .ok task =>
      if task.status.state = TaskState.InputRequired then
        match process_message message with
        | .ok response_message =>
            update_task_status s task_id
              { state := .Completed
                message := some response_message
                timestamp := now }
        | .error e => (.error e, s, [])
      else
        (.error (.InvalidRequest
          ("Task " ++ task_id ++ " is not in input-required state")), s, [])
  | .error _ =>
      match process_message message with
      | .ok response_message =>
          let task : Task :=
            { id := task_id
              session_id := session_id
              status := { state := .Completed
                          message := some response_message
                          timestamp := now }
              artifacts := some [sampleArtifact]
              metadata := none }
          create_task s task
      | .error e => (.error e, s, [])

/-- `handle_get_task` from server.rs. -/
def handle_get_task (s : TaskStore) (request : GetTaskRequest) : StoreResult :=
  (get_task s request.params.id, s, [])

/-- `handle_cancel_task` from server.rs. -/
def handle_cancel_task (s : TaskStore) (request : CancelTaskRequest)
    (now : Nat) : StoreResult :=
  cancel_task s request.params.id now

/-- `payload["method"].as_str()`: indexing a non-object or a missing key
yields `Null`, and `as_str` fails on anything but a string. -/
def methodOf (payload : Json) : Option String :=
  (payload.asObj.bind fun fields => lookupField fields "method").bind
    Json.asString

/-- A success envelope as built by `handle_request`: result present,
error absent, the decoded request's envelope id echoed. -/
def okResponse (rid : Option String) (t : Task) : JsonRpcResponse :=
  { jsonrpc := "2.0", id := rid, result := some t, error := none }

/-- Wrapping one handler's outcome as `handle_request` does per method:
a successful task becomes a success envelope (echoing the decoded
envelope id); an error propagates to the `IntoResponse` layer. -/
def wrapHandler (rid : Option String) (h : StoreResult) :
    Except A2AError JsonRpcResponse × TaskStore × List Task :=
  match h with
  | (.ok task, s', ev) => (.ok (okResponse rid task), s', ev)
  | (.error e, s', ev) => (.error e, s', ev)

/-- `handle_request` from server.rs: extract `method`, route to the three
handlers (decoding the full envelope per method, a decode failure
becoming a `SerializationError` via `#[from] serde_json::Error`), or fail
with `MethodNotFound`. -/
def handle_request (s : TaskStore) (payload : Json) (now : Nat) :
    Except A2AError JsonRpcResponse × TaskStore × List Task :=
  match methodOf payload with
  | none => (.error (.InvalidRequest "Missing method"), s, [])
  | some m =>
      if m = "tasks/send" then
        match decodeSendTaskRequest payload with
        | none => (.error (.SerializationError "decode error"), s, [])
        | some request => wrapHandler request.id (handle_send_task s request now)
      else if m = "tasks/get" then
        match decodeGetTaskRequest payload with
        | none => (.error (.SerializationError "decode error"), s, [])
        | some request => wrapHandler request.id (handle_get_task s request)
      else if m = "tasks/cancel" then
        match decodeCancelTaskRequest payload with
        | none => (.error (.SerializationError "decode error"), s, [])
        | some request => wrapHandler request.id (handle_cancel_task s request now)
      else
        (.error (.MethodNotFound m), s, [])

/-- The `IntoResponse` impl for `A2AError` in server.rs: the error is
mapped to a JSON-RPC error envelope with `id: None` and the code from the
error-kind table. -/
def into_response (e : A2AError) : JsonRpcResponse :=
  let code_message : Int × String :=
    match e with
    | .TaskNotFound id => (-32001, "Task not found: " ++ id)
    | .InvalidRequest msg => (-32600, "Invalid request: " ++ msg)
    | .MethodNotFound m => (-32601, "Method not found: " ++ m)
    | .TaskNotCancelable msg => (-32002, "Task cannot be canceled: " ++ msg)
    | .UnsupportedOperation msg => (-32004, "Unsupported operation: " ++ msg)
    | other => (-32603, "Internal server error: " ++ errDisplay other)
  { jsonrpc := "2.0"
    id := none
    result := none
    error := some { code := code_message.1, message := code_message.2,
                    data := none } }

/-- One full request/response exchange: `handle_request` followed, on the
error path, by the `IntoResponse` conversion. -/
def full_response (s : TaskStore) (payload : Json) (now : Nat) :
    JsonRpcResponse × TaskStore × List Task :=
  match handle_request s payload now with
  | (.ok resp, s', ev) => (resp, s', ev)
  | (.error e, s', ev) => (into_response e, s', ev)

/-- The envelope id as decoded by the matched method's request decoder
(the id `handle_request` echoes on success). -/
def requestIdOf (payload : Json) : Option (Option String) :=
  match methodOf payload with
  | some "tasks/send" => (decodeSendTaskRequest payload).map SendTaskRequest.id
  | some "tasks/get" => (decodeGetTaskRequest payload).map GetTaskRequest.id
  | some "tasks/cancel" =>
      (decodeCancelTaskRequest payload).map CancelTaskRequest.id
  | _ => none

/-! ## Store lemmas -/

/-- Reading back the key just written. -/
theorem lookupTask_insertTask_self (m : List (String × Task)) (k : String)
    (v : Task) : lookupTask (insertTask m k v) k = some v := by
  induction m with
  | nil => simp [insertTask, lookupTask]
  | cons hd tl ih =>
      obtain ⟨k', v'⟩ := hd
      by_cases h : k' = k
      · simp [insertTask, h, lookupTask]
      · simp [insertTask, h, lookupTask, ih]

/-- Writing one key leaves every other key's binding unchanged. -/
theorem lookupTask_insertTask_ne (m : List (String × Task)) (k : String)
    (v : Task) (k' : String) (h : k' ≠ k) :
    lookupTask (insertTask m k v) k' = lookupTask m k' := by
  induction m with
  | nil =>
      simp only [insertTask, lookupTask]
      rw [if_neg fun hh => h hh.symm]
  | cons hd tl ih =>
      obtain ⟨k'', v''⟩ := hd
      by_cases hk : k'' = k
      · subst hk
        simp only [insertTask, if_pos rfl, lookupTask]
        rw [if_neg fun hh => h hh.symm, if_neg fun hh => h hh.symm]
      · simp only [insertTask, if_neg hk, lookupTask]
        by_cases hk' : k'' = k'
        · simp [hk']
        · simp [hk', ih]

/-- The canceled form of a task, as built inside `cancel_task`. -/
def canceledAt (t : Task) (now : Nat) : Task :=
  { t with status := { state := .Canceled
                       message := t.status.message
                       timestamp := now } }

/-! ## Fixtures for witnesses and counterexamples -/

/-- A task sitting in `Working` (cancelable). -/
def taskWorking : Task :=
  { id := "t1", session_id := none
    status := { state := .Working, message := none, timestamp := 0 }
    artifacts := none, metadata := none }

/-- A task already `Completed` (terminal, not cancelable). -/
def taskCompleted : Task :=
  { id := "t2", session_id := none
    status := { state := .Completed, message := none, timestamp := 0 }
    artifacts := none, metadata := none }

/-- A store holding only `taskWorking`. -/
def storeW : TaskStore := ⟨[("t1", taskWorking)]⟩

/-- A store holding only `taskCompleted`. -/
def storeC : TaskStore := ⟨[("t2", taskCompleted)]⟩

/-- The empty store. -/
def store0 : TaskStore := ⟨[]⟩

/-! ## Claim theorems -/

/-- C1: for every stored task, `cancel_task id` succeeds iff the task's
current state is Submitted, Working, or InputRequired; on success the
state becomes Canceled with the prior status message preserved (timestamp
refreshed to `now`) and exactly that snapshot is stored and broadcast;
for any other current state it fails with `TaskNotCancelable` and the
store is left unchanged (and nothing is broadcast). -/
theorem cancel_task_spec (s : TaskStore) (id : String) (now : Nat) (t : Task)
    (hlook : lookupTask s.tasks id = some t) :
    ((t.status.state = .Submitted ∨ t.status.state = .Working ∨
        t.status.state = .InputRequired) →
      cancel_task s id now =
        (.ok (canceledAt t now),
         ⟨insertTask s.tasks id (canceledAt t now)⟩,
         [canceledAt t now])) ∧
    (t.status.state ≠ .Submitted → t.status.state ≠ .Working →
      t.status.state ≠ .InputRequired →
      cancel_task s id now =
        (.error (.TaskNotCancelable
          ("Task " ++ id ++ " cannot be canceled in state "
            ++ stateDebug t.status.state)), s, [])) := by
  constructor
  · rintro (h | h | h) <;>
      · simp only [cancel_task, hlook, h, canceledAt]
  · intro h1 h2 h3
    simp only [cancel_task, hlook]

/-- C1 witness: canceling the concrete `Working` task succeeds and yields
exactly the canceled snapshot. -/
theorem cancel_task_spec_witness :
    lookupTask storeW.tasks "t1" = some taskWorking ∧
    cancel_task storeW "t1" 5 =
      (.ok (canceledAt taskWorking 5),
       ⟨insertTask storeW.tasks "t1" (canceledAt taskWorking 5)⟩,
       [canceledAt taskWorking 5]) :=
  ⟨rfl, (cancel_task_spec storeW "t1" 5 taskWorking rfl).1 (Or.inr (Or.inl rfl))⟩

/-- C3: `get_task id` fails with `TaskNotFound id` exactly when the id is
absent, returns the stored task when present, and — being routed through
`handle_get_task` — never changes the store and never broadcasts. -/
theorem get_task_spec (s : TaskStore) (id : String) :
    (lookupTask s.tasks id = none →
      get_task s id = .error (.TaskNotFound id)) ∧
    (∀ t, lookupTask s.tasks id = some t → get_task s id = .ok t) ∧
    (∀ r : GetTaskRequest,
      (handle_get_task s r).2.1 = s ∧ (handle_get_task s r).2.2 = []) := by
  refine ⟨fun h => ?_, fun t h => ?_, fun r => ⟨rfl, rfl⟩⟩
  · simp [get_task, h]
  · simp [get_task, h]

/-- C3 witness: a missing id fails with `TaskNotFound`, a present id
returns the stored task. -/
theorem get_task_spec_witness :
    lookupTask store0.tasks "missing" = none ∧
    get_task store0 "missing" = .error (.TaskNotFound "missing") ∧
    get_task storeW "t1" = .ok taskWorking :=
  ⟨rfl, (get_task_spec store0 "missing").1 rfl,
   (get_task_spec storeW "t1").2.1 taskWorking rfl⟩

/-- C4: `update_task_status` replaces the status unconditionally whenever
the id is present — whatever the old state, including terminal ones — and
returns (and broadcasts and stores) the updated task; when the id is
absent it fails with `TaskNotFound id` and changes nothing. -/
theorem update_task_status_spec (s : TaskStore) (id : String)
    (status : TaskStatus) :
    (lookupTask s.tasks id = none →
      update_task_status s id status = (.error (.TaskNotFound id), s, [])) ∧
    (∀ t, lookupTask s.tasks id = some t →
      update_task_status s id status =
        (.ok { t with status := status },
         ⟨insertTask s.tasks id { t with status := status }⟩,
         [{ t with status := status }])) := by
  refine ⟨fun h => ?_, fun t h => ?_⟩
  · simp [update_task_status, h]
  · simp [update_task_status, h]

/-- C4 witness: the status of the concrete `Completed` (terminal) task is
replaced by a fresh `Submitted` status without complaint. -/
theorem update_task_status_spec_witness :
    lookupTask storeC.tasks "t2" = some taskCompleted ∧
    update_task_status storeC "t2"
        { state := .Submitted, message := none, timestamp := 9 } =
      (.ok { taskCompleted with status :=
              { state := .Submitted, message := none, timestamp := 9 } },
       ⟨insertTask storeC.tasks "t2"
          { taskCompleted with status :=
              { state := .Submitted, message := none, timestamp := 9 } }⟩,
       [{ taskCompleted with status :=
            { state := .Submitted, message := none, timestamp := 9 } }]) :=
  ⟨rfl, (update_task_status_spec storeC "t2"
      { state := .Submitted, message := none, timestamp := 9 }).2
      taskCompleted rfl⟩

/-- C10: `process_message` is total and deterministic — it returns `Ok`
of a message whose role is "agent" and whose parts are exactly one Text
part holding "Rust A2A server received: " followed by the texts of the
input's Text parts joined by single spaces (File and Data parts are
dropped by `partText`). -/
theorem process_message_spec (m : Message) :
    process_message m =
      .ok { role := "agent"
            parts := [.Text { part_type := "text"
                              text := "Rust A2A server received: "
                                ++ String.intercalate " "
                                    (m.parts.filterMap partText)
                              metadata := none }]
            metadata := none } := rfl

/-- C7: serializing any `Part` variant and deserializing the result (with
the untagged try-Text-then-File-then-Data rule, i.e. inferring the
variant from which of `text`/`file`/`data` is present) recovers the
original value. -/
theorem part_roundtrip (p : Part) : decodePart (encodePart p) = some p := by
  cases p with
  | Text t =>
      obtain ⟨pt, tx, md⟩ := t
      cases md <;> rfl
  | File f =>
      obtain ⟨pt, fc, md⟩ := f
      obtain ⟨n, mt, bs, u⟩ := fc
      cases md <;> cases n <;> cases mt <;> cases bs <;> cases u <;> rfl
  | Data d =>
      obtain ⟨pt, dt, md⟩ := d
      cases md <;> rfl

/-- C9: on a present id, `update_task_status` changes only the `status`
field of the targeted task and `add_artifact` changes only its
`artifacts` field, by appending the given artifact at the end of the
sequence (initializing it when absent); every other task binding in the
store is untouched by either operation. -/
theorem store_mutation_frame (s : TaskStore) (id : String)
    (status : TaskStatus) (a : Artifact) (t : Task)
    (hlook : lookupTask s.tasks id = some t) :
    (update_task_status s id status =
        (.ok { t with status := status },
         ⟨insertTask s.tasks id { t with status := status }⟩,
         [{ t with status := status }])) ∧
    (add_artifact s id a =
        (.ok { t with artifacts := some ((t.artifacts.getD []) ++ [a]) },
         ⟨insertTask s.tasks id
            { t with artifacts := some ((t.artifacts.getD []) ++ [a]) }⟩,
         [{ t with artifacts := some ((t.artifacts.getD []) ++ [a]) }])) ∧
    (∀ other, other ≠ id →
      lookupTask (update_task_status s id status).2.1.tasks other =
        lookupTask s.tasks other ∧
      lookupTask (add_artifact s id a).2.1.tasks other =
        lookupTask s.tasks other) := by
  refine ⟨?_, ?_, fun other hne => ⟨?_, ?_⟩⟩
  · simp [update_task_status, hlook]
  · simp [add_artifact, hlook]
  · simp [update_task_status, hlook, lookupTask_insertTask_ne _ _ _ _ hne]
  · simp [add_artifact, hlook, lookupTask_insertTask_ne _ _ _ _ hne]

/-- C9 witness: updating the status of the stored `Working` task touches
only its status field, and appending an artifact to it initializes the
artifact list with exactly that artifact; the unrelated key "zz" still
resolves to nothing afterwards. -/
theorem store_mutation_frame_witness :
    lookupTask storeW.tasks "t1" = some taskWorking ∧
    update_task_status storeW "t1"
        { state := .Working, message := none, timestamp := 7 } =
      (.ok { taskWorking with status :=
              { state := .Working, message := none, timestamp := 7 } },
       ⟨insertTask storeW.tasks "t1"
          { taskWorking with status :=
              { state := .Working, message := none, timestamp := 7 } }⟩,
       [{ taskWorking with status :=
            { state := .Working, message := none, timestamp := 7 } }]) ∧
    add_artifact storeW "t1" sampleArtifact =
      (.ok { taskWorking with artifacts := some [sampleArtifact] },
       ⟨insertTask storeW.tasks "t1"
          { taskWorking with artifacts := some [sampleArtifact] }⟩,
       [{ taskWorking with artifacts := some [sampleArtifact] }]) ∧
    lookupTask (update_task_status storeW "t1"
        { state := .Working, message := none, timestamp := 7 }).2.1.tasks
        "zz" = lookupTask storeW.tasks "zz" :=
  ⟨rfl,
   (store_mutation_frame storeW "t1"
      { state := .Working, message := none, timestamp := 7 } sampleArtifact
      taskWorking rfl).1,
   (store_mutation_frame storeW "t1"
      { state := .Working, message := none, timestamp := 7 } sampleArtifact
      taskWorking rfl).2.1,
   ((store_mutation_frame storeW "t1"
      { state := .Working, message := none, timestamp := 7 } sampleArtifact
      taskWorking rfl).2.2 "zz" (by decide)).1⟩

/-- C8: every successful store mutation (`create_task`,
`update_task_status`, `add_artifact`, `cancel_task`) sends exactly one
snapshot on the broadcast channel, and that snapshot is the
post-mutation stored task; a failed mutation attempt sends nothing and
leaves the store unchanged. -/
theorem store_mutation_events (s : TaskStore) (t : Task) (id : String)
    (status : TaskStatus) (a : Artifact) (now : Nat) :
    ((create_task s t).1 = .ok t ∧ (create_task s t).2.2 = [t] ∧
      lookupTask (create_task s t).2.1.tasks t.id = some t) ∧
    (∀ u, (update_task_status s id status).1 = .ok u →
      (update_task_status s id status).2.2 = [u] ∧
      lookupTask (update_task_status s id status).2.1.tasks id = some u) ∧
    (∀ e, (update_task_status s id status).1 = .error e →
      (update_task_status s id status).2.2 = [] ∧
      (update_task_status s id status).2.1 = s) ∧
    (∀ u, (add_artifact s id a).1 = .ok u →
      (add_artifact s id a).2.2 = [u] ∧
      lookupTask (add_artifact s id a).2.1.tasks id = some u) ∧
    (∀ e, (add_artifact s id a).1 = .error e →
      (add_artifact s id a).2.2 = [] ∧ (add_artifact s id a).2.1 = s) ∧
    (∀ u, (cancel_task s id now).1 = .ok u →
      (cancel_task s id now).2.2 = [u] ∧
      lookupTask (cancel_task s id now).2.1.tasks id = some u) ∧
    (∀ e, (cancel_task s id now).1 = .error e →
      (cancel_task s id now).2.2 = [] ∧ (cancel_task s id now).2.1 = s) := by
  refine ⟨⟨rfl, rfl, lookupTask_insertTask_self _ _ _⟩, ?_, ?_, ?_, ?_, ?_, ?_⟩
  · intro u hu
    cases hl : lookupTask s.tasks id <;>
      simp_all [update_task_status, lookupTask_insertTask_self]
  · intro e he
    cases hl : lookupTask s.tasks id <;> simp_all [update_task_status]
  · intro u hu
    cases hl : lookupTask s.tasks id <;>
      simp_all [add_artifact, lookupTask_insertTask_self]
  · intro e he
    cases hl : lookupTask s.tasks id <;> simp_all [add_artifact]
  · intro u hu
    cases hl : lookupTask s.tasks id with
    | none => simp_all [cancel_task]
    | some w =>
        cases hs : w.status.state <;>
          simp_all [cancel_task, lookupTask_insertTask_self]
  · intro e he
    cases hl : lookupTask s.tasks id with
    | none => simp_all [cancel_task]
    | some w =>
        cases hs : w.status.state <;> simp_all [cancel_task]

/-- C8 witness: a successful status update on the concrete store
broadcasts exactly its post-mutation snapshot, and a failed cancel (on a
`Completed` task) broadcasts nothing and leaves the store unchanged. -/
theorem store_mutation_events_witness :
    (update_task_status storeW "t1"
        { state := .Failed, message := none, timestamp := 3 }).2.2 =
      [{ taskWorking with status :=
          { state := .Failed, message := none, timestamp := 3 } }] ∧
    (cancel_task storeC "t2" 3).2.2 = [] ∧ (cancel_task storeC "t2" 3).2.1 = storeC :=
  ⟨((store_mutation_events storeW taskWorking "t1"
      { state := .Failed, message := none, timestamp := 3 } sampleArtifact
      3).2.1 _ rfl).1,
   ((store_mutation_events storeC taskCompleted "t2"
      { state := .Failed, message := none, timestamp := 3 } sampleArtifact
      3).2.2.2.2.2.2 _ rfl).1,
   ((store_mutation_events storeC taskCompleted "t2"
      { state := .Failed, message := none, timestamp := 3 } sampleArtifact
      3).2.2.2.2.2.2 _ rfl).2⟩

/-- C2: a `tasks/send` request on an id absent from the store creates a
task with status Completed, the computed reply message attached, and
exactly the one synthetic text artifact; on an id present in
`InputRequired` it sets the status to Completed with the reply message;
on an id present in any other state it fails with `InvalidRequest` and
changes nothing. -/
theorem handle_send_task_spec (s : TaskStore) (r : SendTaskRequest)
    (now : Nat) :
    (lookupTask s.tasks r.params.id = none →
      ∃ rm, process_message r.params.message = .ok rm ∧
        handle_send_task s r now =
          (.ok { id := r.params.id
                 session_id := r.params.session_id
                 status := { state := .Completed, message := some rm,
                             timestamp := now }
                 artifacts := some [sampleArtifact]
                 metadata := none },
           ⟨insertTask s.tasks r.params.id
              { id := r.params.id
                session_id := r.params.session_id
                status := { state := .Completed, message := some rm,
                            timestamp := now }
                artifacts := some [sampleArtifact]
                metadata := none }⟩,
           [{ id := r.params.id
              session_id := r.params.session_id
              status := { state := .Completed, message := some rm,
                          timestamp := now }
              artifacts := some [sampleArtifact]
              metadata := none }])) ∧
    (∀ t, lookupTask s.tasks r.params.id = some t →
      t.status.state = .InputRequired →
      ∃ rm, process_message r.params.message = .ok rm ∧
        handle_send_task s r now =
          (.ok { t with status := { state := .Completed, message := some rm,
                                    timestamp := now } },
           ⟨insertTask s.tasks r.params.id
              { t with status := { state := .Completed, message := some rm,
                                   timestamp := now } }⟩,
           [{ t with status := { state := .Completed, message := some rm,
                                 timestamp := now } }])) ∧
    (∀ t, lookupTask s.tasks r.params.id = some t →
      t.status.state ≠ .InputRequired →
      handle_send_task s r now =
        (.error (.InvalidRequest
          ("Task " ++ r.params.id ++ " is not in input-required state")),
         s, [])) := by
  refine ⟨fun h => ?_, fun t h hstate => ?_, fun t h hstate => ?_⟩
  · exact ⟨_, rfl, by
      simp [handle_send_task, get_task, h, process_message, create_task,
        sampleArtifact]⟩
  · exact ⟨_, rfl, by
      simp [handle_send_task, get_task, h, hstate, process_message,
        update_task_status]⟩
  · simp [handle_send_task, get_task, h, hstate]

/-- A concrete Scenario-A send request: task id "t1", a user message with
one text part "hi". -/
def sendReq1 : SendTaskRequest :=
  { jsonrpc := "2.0"
    id := some "42"
    method := "tasks/send"
    params :=
      { id := "t1"
        session_id := none
        message :=
          { role := "user"
            parts := [.Text { part_type := "text", text := "hi",
                              metadata := none }]
            metadata := none }
        history_length := none
        metadata := none } }

/-- C2 witness: sending `sendReq1` on the empty store creates a Completed
task carrying the computed reply and the synthetic artifact. -/
theorem handle_send_task_spec_witness :
    lookupTask store0.tasks sendReq1.params.id = none ∧
    ∃ rm, process_message sendReq1.params.message = .ok rm ∧
      handle_send_task store0 sendReq1 0 =
        (.ok { id := sendReq1.params.id
               session_id := sendReq1.params.session_id
               status := { state := .Completed, message := some rm,
                           timestamp := 0 }
               artifacts := some [sampleArtifact]
               metadata := none },
         ⟨insertTask store0.tasks sendReq1.params.id
            { id := sendReq1.params.id
              session_id := sendReq1.params.session_id
              status := { state := .Completed, message := some rm,
                          timestamp := 0 }
              artifacts := some [sampleArtifact]
              metadata := none }⟩,
         [{ id := sendReq1.params.id
            session_id := sendReq1.params.session_id
            status := { state := .Completed, message := some rm,
                        timestamp := 0 }
            artifacts := some [sampleArtifact]
            metadata := none }]) :=
  ⟨rfl, (handle_send_task_spec store0 sendReq1 0).1 rfl⟩

/-! ## Dispatcher case lemmas -/

theorem full_response_no_method (s : TaskStore) (p : Json) (now : Nat)
    (h : methodOf p = none) :
    full_response s p now =
      (into_response (.InvalidRequest "Missing method"), s, []) := by
  simp [full_response, handle_request, h]

theorem full_response_unknown (s : TaskStore) (p : Json) (now : Nat)
    (m : String) (h : methodOf p = some m) (h1 : m ≠ "tasks/send")
    (h2 : m ≠ "tasks/get") (h3 : m ≠ "tasks/cancel") :
    full_response s p now = (into_response (.MethodNotFound m), s, []) := by
  simp [full_response, handle_request, h, h1, h2, h3]

theorem full_response_send_badparams (s : TaskStore) (p : Json) (now : Nat)
    (h : methodOf p = some "tasks/send")
    (hd : decodeSendTaskRequest p = none) :
    full_response s p now =
      (into_response (.SerializationError "decode error"), s, []) := by
  simp [full_response, handle_request, h, hd]

theorem full_response_send_ok (s : TaskStore) (p : Json) (now : Nat)
    (r : SendTaskRequest) (t : Task) (s' : TaskStore) (ev : List Task)
    (h : methodOf p = some "tasks/send")
    (hd : decodeSendTaskRequest p = some r)
    (hh : handle_send_task s r now = (.ok t, s', ev)) :
    full_response s p now = (okResponse r.id t, s', ev) := by
  simp [full_response, handle_request, h, hd, hh, wrapHandler]

theorem full_response_send_err (s : TaskStore) (p : Json) (now : Nat)
    (r : SendTaskRequest) (e : A2AError) (s' : TaskStore) (ev : List Task)
    (h : methodOf p = some "tasks/send")
    (hd : decodeSendTaskRequest p = some r)
    (hh : handle_send_task s r now = (.error e, s', ev)) :
    full_response s p now = (into_response e, s', ev) := by
  simp [full_response, handle_request, h, hd, hh, wrapHandler]

theorem full_response_get_badparams (s : TaskStore) (p : Json) (now : Nat)
    (h : methodOf p = some "tasks/get")
    (hd : decodeGetTaskRequest p = none) :
    full_response s p now =
      (into_response (.SerializationError "decode error"), s, []) := by
  simp [full_response, handle_request, h, hd]

theorem full_response_get_ok (s : TaskStore) (p : Json) (now : Nat)
    (r : GetTaskRequest) (t : Task)
    (h : methodOf p = some "tasks/get")
    (hd : decodeGetTaskRequest p = some r)
    (hh : get_task s r.params.id = .ok t) :
    full_response s p now = (okResponse r.id t, s, []) := by
  simp [full_response, handle_request, h, hd, handle_get_task, hh,
    wrapHandler]

theorem full_response_get_err (s : TaskStore) (p : Json) (now : Nat)
    (r : GetTaskRequest) (e : A2AError)
    (h : methodOf p = some "tasks/get")
    (hd : decodeGetTaskRequest p = some r)
    (hh : get_task s r.params.id = .error e) :
    full_response s p now = (into_response e, s, []) := by
  simp [full_response, handle_request, h, hd, handle_get_task, hh,
    wrapHandler]

theorem full_response_cancel_badparams (s : TaskStore) (p : Json) (now : Nat)
    (h : methodOf p = some "tasks/cancel")
    (hd : decodeCancelTaskRequest p = none) :
    full_response s p now =
      (into_response (.SerializationError "decode error"), s, []) := by
  simp [full_response, handle_request, h, hd]

theorem full_response_cancel_ok (s : TaskStore) (p : Json) (now : Nat)
    (r : CancelTaskRequest) (t : Task) (s' : TaskStore) (ev : List Task)
    (h : methodOf p = some "tasks/cancel")
    (hd : decodeCancelTaskRequest p = some r)
    (hh : cancel_task s r.params.id now = (.ok t, s', ev)) :
    full_response s p now = (okResponse r.id t, s', ev) := by
  simp [full_response, handle_request, h, hd, handle_cancel_task, hh,
    wrapHandler]

theorem full_response_cancel_err (s : TaskStore) (p : Json) (now : Nat)
    (r : CancelTaskRequest) (e : A2AError) (s' : TaskStore) (ev : List Task)
    (h : methodOf p = some "tasks/cancel")
    (hd : decodeCancelTaskRequest p = some r)
    (hh : cancel_task s r.params.id now = (.error e, s', ev)) :
    full_response s p now = (into_response e, s', ev) := by
  simp [full_response, handle_request, h, hd, handle_cancel_task, hh,
    wrapHandler]

/-- Every response the dispatcher produces is either a success envelope
or an error envelope. -/
theorem full_response_shape (s : TaskStore) (p : Json) (now : Nat) :
    (∃ rid t, (full_response s p now).1 = okResponse rid t) ∨
    (∃ e, (full_response s p now).1 = into_response e) := by
  cases hm : methodOf p with
  | none => exact .inr ⟨_, by rw [full_response_no_method s p now hm]⟩
  | some m =>
      by_cases h1 : m = "tasks/send"
      · subst h1
        cases hd : decodeSendTaskRequest p with
        | none =>
            exact .inr ⟨_, by rw [full_response_send_badparams s p now hm hd]⟩
        | some r =>
            rcases hh : handle_send_task s r now with ⟨res, s', ev⟩
            cases res with
            | ok t =>
                exact .inl ⟨r.id, t,
                  by rw [full_response_send_ok s p now r t s' ev hm hd hh]⟩
            | error e =>
                exact .inr ⟨e,
                  by rw [full_response_send_err s p now r e s' ev hm hd hh]⟩
      · by_cases h2 : m = "tasks/get"
        · subst h2
          cases hd : decodeGetTaskRequest p with
          | none =>
              exact .inr ⟨_, by rw [full_response_get_badparams s p now hm hd]⟩
          | some r =>
              cases hh : get_task s r.params.id with
              | ok t =>
                  exact .inl ⟨r.id, t,
                    by rw [full_response_get_ok s p now r t hm hd hh]⟩
              | error e =>
                  exact .inr ⟨e,
                    by rw [full_response_get_err s p now r e hm hd hh]⟩
        · by_cases h3 : m = "tasks/cancel"
          · subst h3
            cases hd : decodeCancelTaskRequest p with
            | none =>
                exact .inr ⟨_,
                  by rw [full_response_cancel_badparams s p now hm hd]⟩
            | some r =>
                rcases hh : cancel_task s r.params.id now with ⟨res, s', ev⟩
                cases res with
                | ok t =>
                    exact .inl ⟨r.id, t,
                      by rw [full_response_cancel_ok s p now r t s' ev hm hd hh]⟩
                | error e =>
                    exact .inr ⟨e,
                      by rw [full_response_cancel_err s p now r e s' ev hm hd hh]⟩
          · exact .inr ⟨_, by rw [full_response_unknown s p now m hm h1 h2 h3]⟩

/-- The JSON-RPC error code carried by a response, when any. -/
def responseCode (resp : JsonRpcResponse) : Option Int :=
  resp.error.map JsonRpcError.code

/-- A payload with no `method` key. -/
def payloadNoMethod : Json := .obj [("jsonrpc", .str "2.0")]

/-- A payload naming an unknown method. -/
def payloadUnknown : Json :=
  .obj [("jsonrpc", .str "2.0"), ("method", .str "tasks/frobnicate")]

/-- A `tasks/send` payload whose params are missing (so the envelope does
not decode as a `SendTaskRequest`). -/
def payloadBadParams : Json :=
  .obj [("jsonrpc", .str "2.0"), ("method", .str "tasks/send")]

/-- A well-formed `tasks/get` payload with envelope id "1" asking for the
absent task "missing". -/
def payloadGetMissing : Json :=
  .obj [("jsonrpc", .str "2.0"), ("id", .str "1"),
        ("method", .str "tasks/get"),
        ("params", .obj [("id", .str "missing")])]

/-- A well-formed `tasks/send` payload with envelope id "42" creating
task "t1" from a user message "hi". -/
def payloadSendOk : Json :=
  .obj [("jsonrpc", .str "2.0"), ("id", .str "42"),
        ("method", .str "tasks/send"),
        ("params", .obj [("id", .str "t1"),
          ("message", .obj [("role", .str "user"),
            ("parts", .arr [.obj [("type", .str "text"),
                                  ("text", .str "hi")]])])])]

/-- A well-formed `tasks/send` payload with envelope id "7" addressing
the already-Completed task "t2" of `storeC`. -/
def payloadSendAgain : Json :=
  .obj [("jsonrpc", .str "2.0"), ("id", .str "7"),
        ("method", .str "tasks/send"),
        ("params", .obj [("id", .str "t2"),
          ("message", .obj [("role", .str "user"),
            ("parts", .arr [.obj [("type", .str "text"),
                                  ("text", .str "again")]])])])]

/-- The `SendTaskRequest` that `payloadSendAgain` decodes to. -/
def sendReqAgain : SendTaskRequest :=
  { jsonrpc := "2.0"
    id := some "7"
    method := "tasks/send"
    params :=
      { id := "t2"
        session_id := none
        message :=
          { role := "user"
            parts := [.Text { part_type := "text", text := "again",
                              metadata := none }]
            metadata := none }
        history_length := none
        metadata := none } }

/-- C5 counterexample: a `tasks/send` request whose params fail to decode
is answered with code -32603 (the `SerializationError` catch-all), not
-32600 as the claim states. -/
theorem dispatch_badparams_counterexample :
    methodOf payloadBadParams = some "tasks/send" ∧
    decodeSendTaskRequest payloadBadParams = none ∧
    responseCode (full_response store0 payloadBadParams 0).1 =
      some (-32603) ∧
    some (-32603 : Int) ≠ some (-32600 : Int) :=
  ⟨rfl, rfl, rfl, by decide⟩

/-- C5 (amended): every response carries exactly one of result/error,
and the reachable failures map as follows: an unknown method yields
-32601; a missing task id (on `tasks/get` or `tasks/cancel`) yields
-32001; a non-cancelable task on `tasks/cancel` yields -32002; an
envelope without a usable `method` yields -32600, as does a `tasks/send`
to an existing task not in `InputRequired` (both are `InvalidRequest`);
params that fail to decode yield -32603 (the serialization-error
catch-all). -/
theorem dispatch_error_codes (s : TaskStore) (p : Json) (now : Nat) :
    ((full_response s p now).1.result.isSome = true ↔
      (full_response s p now).1.error = none) ∧
    (methodOf p = none →
      responseCode (full_response s p now).1 = some (-32600)) ∧
    (∀ m, methodOf p = some m → m ≠ "tasks/send" → m ≠ "tasks/get" →
      m ≠ "tasks/cancel" →
      responseCode (full_response s p now).1 = some (-32601)) ∧
    (∀ r, methodOf p = some "tasks/get" →
      decodeGetTaskRequest p = some r →
      lookupTask s.tasks r.params.id = none →
      responseCode (full_response s p now).1 = some (-32001)) ∧
    (∀ r t, methodOf p = some "tasks/cancel" →
      decodeCancelTaskRequest p = some r →
      lookupTask s.tasks r.params.id = some t →
      t.status.state ≠ .Submitted → t.status.state ≠ .Working →
      t.status.state ≠ .InputRequired →
      responseCode (full_response s p now).1 = some (-32002)) ∧
    (methodOf p = some "tasks/send" → decodeSendTaskRequest p = none →
      responseCode (full_response s p now).1 = some (-32603)) ∧
    (methodOf p = some "tasks/get" → decodeGetTaskRequest p = none →
      responseCode (full_response s p now).1 = some (-32603)) ∧
    (methodOf p = some "tasks/cancel" → decodeCancelTaskRequest p = none →
      responseCode (full_response s p now).1 = some (-32603)) ∧
    (∀ r t, methodOf p = some "tasks/send" →
      decodeSendTaskRequest p = some r →
      lookupTask s.tasks r.params.id = some t →
      t.status.state ≠ .InputRequired →
      responseCode (full_response s p now).1 = some (-32600)) ∧
    (∀ r, methodOf p = some "tasks/cancel" →
      decodeCancelTaskRequest p = some r →
      lookupTask s.tasks r.params.id = none →
      responseCode (full_response s p now).1 = some (-32001)) := by
  refine ⟨?_, fun h => ?_, fun m h h1 h2 h3 => ?_, fun r h hd hl => ?_,
    fun r t h hd hl h1 h2 h3 => ?_, fun h hd => ?_, fun h hd => ?_,
    fun h hd => ?_, fun r t h hd hl hstate => ?_, fun r h hd hl => ?_⟩
  · rcases full_response_shape s p now with ⟨rid, t, hshape⟩ | ⟨e, hshape⟩ <;>
      rw [hshape] <;> simp [okResponse, into_response]
  · rw [full_response_no_method s p now h]; rfl
  · rw [full_response_unknown s p now m h h1 h2 h3]; rfl
  · have hg : get_task s r.params.id = .error (.TaskNotFound r.params.id) := by
      simp [get_task, hl]
    rw [full_response_get_err s p now r _ h hd hg]; rfl
  · have hc : cancel_task s r.params.id now =
        (.error (.TaskNotCancelable
          ("Task " ++ r.params.id ++ " cannot be canceled in state "
            ++ stateDebug t.status.state)), s, []) := by
      simp only [cancel_task, hl]
    rw [full_response_cancel_err s p now r _ s [] h hd hc]; rfl
  · rw [full_response_send_badparams s p now h hd]; rfl
  · rw [full_response_get_badparams s p now h hd]; rfl
  · rw [full_response_cancel_badparams s p now h hd]; rfl
  · have hh : handle_send_task s r now =
        (.error (.InvalidRequest
          ("Task " ++ r.params.id ++ " is not in input-required state")),
         s, []) := by
      simp [handle_send_task, get_task, hl, hstate]
    rw [full_response_send_err s p now r _ s [] h hd hh]; rfl
  · have hc : cancel_task s r.params.id now =
        (.error (.TaskNotFound r.params.id), s, []) := by
      simp [cancel_task, hl]
    rw [full_response_cancel_err s p now r _ s [] h hd hc]; rfl

/-- C5 witness: on the empty store, the no-method payload is answered
with -32600, the unknown-method payload with -32601, and the get of a
missing task with -32001; on `storeC`, re-sending to the Completed task
"t2" is answered with -32600 (InvalidRequest). -/
theorem dispatch_error_codes_witness :
    methodOf payloadNoMethod = none ∧
    responseCode (full_response store0 payloadNoMethod 0).1 =
      some (-32600) ∧
    methodOf payloadUnknown = some "tasks/frobnicate" ∧
    responseCode (full_response store0 payloadUnknown 0).1 =
      some (-32601) ∧
    responseCode (full_response store0 payloadGetMissing 0).1 =
      some (-32001) ∧
    lookupTask storeC.tasks "t2" = some taskCompleted ∧
    responseCode (full_response storeC payloadSendAgain 0).1 =
      some (-32600) :=
  ⟨rfl, (dispatch_error_codes store0 payloadNoMethod 0).2.1 rfl, rfl,
   (dispatch_error_codes store0 payloadUnknown 0).2.2.1 "tasks/frobnicate"
     rfl (by decide) (by decide) (by decide),
   (dispatch_error_codes store0 payloadGetMissing 0).2.2.2.1
     { jsonrpc := "2.0", id := some "1", method := "tasks/get",
       params := { id := "missing", history_length := none,
                   metadata := none } } rfl rfl rfl,
   rfl,
   (dispatch_error_codes storeC payloadSendAgain 0).2.2.2.2.2.2.2.2.1
     sendReqAgain taskCompleted rfl rfl rfl (by decide)⟩

/-- C6 counterexample: the `tasks/get` payload carrying envelope id "1"
for a missing task is answered with an error envelope whose id is null —
the inbound id is not echoed on failure. -/
theorem response_id_counterexample :
    (decodeGetTaskRequest payloadGetMissing).map GetTaskRequest.id =
      some (some "1") ∧
    (full_response store0 payloadGetMissing 0).1.error.isSome = true ∧
    (full_response store0 payloadGetMissing 0).1.id = none :=
  ⟨rfl, rfl, rfl⟩

/-- C6 (amended): on success the response echoes the envelope id decoded
from the inbound request; on every failure the response id is null, even
when the inbound envelope carried an id. -/
theorem response_id_echo (s : TaskStore) (p : Json) (now : Nat) :
    ((full_response s p now).1.error.isSome = true →
      (full_response s p now).1.id = none) ∧
    ((full_response s p now).1.error = none →
      some (full_response s p now).1.id = requestIdOf p) := by
  constructor
  · intro herr
    rcases full_response_shape s p now with ⟨rid, t, hshape⟩ | ⟨e, hshape⟩ <;>
      rw [hshape] at herr ⊢
    · simp [okResponse] at herr
    · simp [into_response]
  · intro hok
    cases hm : methodOf p with
    | none =>
        rw [full_response_no_method s p now hm] at hok
        simp [into_response] at hok
    | some m =>
        by_cases h1 : m = "tasks/send"
        · subst h1
          cases hd : decodeSendTaskRequest p with
          | none =>
              rw [full_response_send_badparams s p now hm hd] at hok
              simp [into_response] at hok
          | some r =>
              rcases hh : handle_send_task s r now with ⟨res, s', ev⟩
              cases res with
              | ok t =>
                  rw [full_response_send_ok s p now r t s' ev hm hd hh]
                  simp [okResponse, requestIdOf, hm, hd]
              | error e =>
                  rw [full_response_send_err s p now r e s' ev hm hd hh] at hok
                  simp [into_response] at hok
        · by_cases h2 : m = "tasks/get"
          · subst h2
            cases hd : decodeGetTaskRequest p with
            | none =>
                rw [full_response_get_badparams s p now hm hd] at hok
                simp [into_response] at hok
            | some r =>
                cases hh : get_task s r.params.id with
                | ok t =>
                    rw [full_response_get_ok s p now r t hm hd hh]
                    simp [okResponse, requestIdOf, hm, hd]
                | error e =>
                    rw [full_response_get_err s p now r e hm hd hh] at hok
                    simp [into_response] at hok
          · by_cases h3 : m = "tasks/cancel"
            · subst h3
              cases hd : decodeCancelTaskRequest p with
              | none =>
                  rw [full_response_cancel_badparams s p now hm hd] at hok
                  simp [into_response] at hok
              | some r =>
                  rcases hh : cancel_task s r.params.id now with ⟨res, s', ev⟩
                  cases res with
                  | ok t =>
                      rw [full_response_cancel_ok s p now r t s' ev hm hd hh]
                      simp [okResponse, requestIdOf, hm, hd]
                  | error e =>
                      rw [full_response_cancel_err s p now r e s' ev hm hd hh]
                        at hok
                      simp [into_response] at hok
            · rw [full_response_unknown s p now m hm h1 h2 h3] at hok
              simp [into_response] at hok

/-- C6 witness: the failing get is answered with a null id, and the
successful send echoes envelope id "42" as decoded from the inbound
payload. -/
theorem response_id_echo_witness :
    (full_response store0 payloadGetMissing 0).1.error.isSome = true ∧
    (full_response store0 payloadGetMissing 0).1.id = none ∧
    (full_response store0 payloadSendOk 0).1.error = none ∧
    some (full_response store0 payloadSendOk 0).1.id =
      requestIdOf payloadSendOk :=
  ⟨rfl, (response_id_echo store0 payloadGetMissing 0).1 rfl, rfl,
   (response_id_echo store0 payloadSendOk 0).2 rfl⟩

end A2A
